import Mathlib

/-!
Verification of the privacy / AI-usage governance engine of the
pico-creativebrain repository.

The repository contains two near-duplicate implementations of the engine:
`src/Claude/PrivacyManager.py` (referred to below as the Claude variant)
and `src/Gemini/services/privacy_manager.py` (the Gemini variant).
Both are shallowly embedded here: Python regular expressions become a
small executable regex AST with Python `re` leftmost / greedy / priority
semantics (including the `findall` rule that a pattern with exactly one
capturing group yields the group text), Python strings become Lean
`String`, SQLite tables become Lean lists, `datetime` values become
integer second counts, and the `try/except` blocks become explicit
failure flags.  Character level operations (`str.lower`, `\w`, `\d`)
are modelled at ASCII precision, which is exact for every pattern,
keyword and literal the code contains.
-/

/-- `PrivacyMode` enum from both variants (identical definitions). -/
inductive PrivacyMode where
  | PRIVATE
  | SELECTIVE
  | OPEN
deriving DecidableEq, Repr

/-- The `.value` string of a `PrivacyMode` member. -/
def PrivacyMode.value : PrivacyMode → String
  | .PRIVATE => "private"
  | .SELECTIVE => "selective"
  | .OPEN => "open"

/-- `DataSensitivity` enum from both variants. -/
inductive DataSensitivity where
  | PUBLIC
  | PERSONAL
  | CONFIDENTIAL
  | RESTRICTED
deriving DecidableEq, Repr

/-- The `.value` string of a `DataSensitivity` member. -/
def DataSensitivity.value : DataSensitivity → String
  | .PUBLIC => "public"
  | .PERSONAL => "personal"
  | .CONFIDENTIAL => "confidential"
  | .RESTRICTED => "restricted"

/-- `AIProvider` enum from both variants, in declaration order. -/
inductive AIProvider where
  | OPENAI
  | ANTHROPIC
  | GOOGLE
  | HUGGINGFACE
  | OPENROUTER
  | LOCAL
deriving DecidableEq, Repr

/-- The `.value` string of an `AIProvider` member. -/
def AIProvider.value : AIProvider → String
  | .OPENAI => "openai"
  | .ANTHROPIC => "anthropic"
  | .GOOGLE => "google"
  | .HUGGINGFACE => "huggingface"
  | .OPENROUTER => "openrouter"
  | .LOCAL => "local"

/-- `list(AIProvider)`: all members in declaration order. -/
def allProviders : List AIProvider :=
  [.OPENAI, .ANTHROPIC, .GOOGLE, .HUGGINGFACE, .OPENROUTER, .LOCAL]

/-! ## A small regex engine with Python `re` semantics

Only the constructs appearing in the repository's patterns are needed:
character classes, literals, concatenation, alternation, greedy `*`
(from which `+`, `{n}`, `{n,}`, `?` are derived), the zero-width word
boundary `\b`, and a single capturing group.  `matchEnds` returns the
candidate match endpoints in Python's backtracking priority order, so
the head of the list is the match Python selects. -/

/-- Python `\w` at ASCII precision: letters, digits and underscore. -/
def isWordChar (c : Char) : Bool :=
  c.isAlpha || c.isDigit || c = '_'

/-- Whether `\b` holds between positions `i-1` and `i` of `s`
(out of range counts as a non-word character). -/
def wordBoundaryAt (s : List Char) (i : Nat) : Bool :=
  let before : Bool :=
    match i with
    | 0 => false
    | j + 1 => match s.get? j with
      | some c => isWordChar c
      | none => false
  let after : Bool :=
    match s.get? i with
    | some c => isWordChar c
    | none => false
  before != after

/-- Regex abstract syntax. `grp` marks the (single) capturing group. -/
inductive RE where
  | eps
  | wb
  | cls (p : Char → Bool)
  | cat (r₁ r₂ : RE)
  | alt (r₁ r₂ : RE)
  | star (r : RE)
  | grp (r : RE)

/-- One candidate: match end position and, if a group was traversed,
the group's span. -/
abbrev MatchCand := Nat × Option (Nat × Nat)

/-- Greedy Kleene star: given the one-iteration stepper `step`, list all
reachable endpoints, preferring more iterations (Python's greedy order).
Only strictly advancing iterations are taken, which is exact for the
repository's patterns (every starred body consumes a character). -/
def starEnds (step : Nat → List MatchCand) : Nat → Nat → Option (Nat × Nat) → List MatchCand
  | 0, i, g => [(i, g)]
  | fuel + 1, i, g =>
    ((step i).filter (fun x => i < x.1)).flatMap
      (fun x => starEnds step fuel x.1 (x.2.orElse (fun _ => g))) ++ [(i, g)]

/-- All candidate ends of a match of `r` starting at position `i` of `s`,
in Python backtracking priority order (head = Python's chosen match). -/
def matchEnds (s : List Char) : RE → Nat → List MatchCand
  | .eps, i => [(i, none)]
  | .wb, i => if wordBoundaryAt s i then [(i, none)] else []
  | .cls p, i =>
    match s.get? i with
    | some c => if p c then [(i + 1, none)] else []
    | none => []
  | .cat r₁ r₂, i =>
    (matchEnds s r₁ i).flatMap (fun x =>
      (matchEnds s r₂ x.1).map (fun y => (y.1, y.2.orElse (fun _ => x.2))))
  | .alt r₁ r₂, i => matchEnds s r₁ i ++ matchEnds s r₂ i
  | .star r, i => starEnds (matchEnds s r) (s.length + 1 - i) i none
  | .grp r, i => (matchEnds s r i).map (fun x => (x.1, some (i, x.1)))

/-- Leftmost search: the first position `≥ i` (fuel-bounded) at which `r`
matches; returns match start, end, and group span. -/
def searchFrom (s : List Char) (r : RE) : Nat → Nat → Option (Nat × Nat × Option (Nat × Nat))
  | 0, _ => none
  | fuel + 1, i =>
    match matchEnds s r i with
    | [] => searchFrom s r fuel (i + 1)
    | x :: _ => some (i, x.1, x.2)

/-- The slice `s[a:b]` as a character list. -/
def sliceList (s : List Char) (a b : Nat) : List Char :=
  (s.drop a).take (b - a)

/-- `re.finditer`-style scan yielding the matched substrings in order;
with `useGroup` set, the text of the capturing group is yielded instead
of the whole match (Python's `findall` rule for one-group patterns).
Empty matches advance by one position, as in Python. -/
def findAllAux (s : List Char) (r : RE) (useGroup : Bool) : Nat → Nat → List (List Char)
  | 0, _ => []
  | fuel + 1, i =>
    match searchFrom s r (s.length + 1 - i) i with
    | none => []
    | some (a, b, g) =>
      let matched :=
        if useGroup then
          match g with
          | some gs => sliceList s gs.1 gs.2
          | none => []
        else sliceList s a b
      matched :: findAllAux s r useGroup fuel (if a < b then b else b + 1)

/-- `re.findall(pattern, s)` (substring results). -/
def reFindAll (r : RE) (useGroup : Bool) (s : String) : List String :=
  (findAllAux s.data r useGroup (s.data.length + 1) 0).map (fun l => String.mk l)

/-- Truthiness of `re.search(pattern, s)`. -/
def reSearch (r : RE) (s : String) : Bool :=
  (searchFrom s.data r (s.data.length + 1) 0).isSome

/-- Literal character. -/
def lit (c : Char) : RE := .cls (fun d => d = c)

/-- Literal character sequence. -/
def litStr (l : List Char) : RE := l.foldr (fun c r => .cat (lit c) r) .eps

/-- Greedy `+`. -/
def rePlus (r : RE) : RE := .cat r (.star r)

/-- Greedy `?`. -/
def reOpt (r : RE) : RE := .alt r .eps

/-- Exact repetition `{n}`. -/
def repN (r : RE) : Nat → RE
  | 0 => .eps
  | n + 1 => .cat r (repN r n)

/-- Greedy `{n,}`. -/
def repAtLeast (r : RE) (n : Nat) : RE := .cat (repN r n) (.star r)

/-- Chained concatenation of a pattern list. -/
def catList (l : List RE) : RE := l.foldr .cat .eps

/-- Chained alternation (first alternative has priority, as in Python). -/
def altList : List RE → RE
  | [] => .eps
  | [r] => r
  | r :: rest => .alt r (altList rest)

/-! ## Python string primitives used by the code -/

/-- `str.lower()` at ASCII precision (every keyword and literal in the
code is ASCII). -/
def lowerStr (s : String) : String := String.mk (s.data.map Char.toLower)

/-- Substring containment on character lists (`needle in hay`). -/
def listContains : List Char → List Char → Bool
  | hay, needle =>
    if needle.isPrefixOf hay then true
    else match hay with
      | [] => false
      | _ :: t => listContains t needle

/-- Python `needle in hay` for strings (empty needle is contained). -/
def containsSub (hay needle : String) : Bool := listContains hay.data needle.data

/-- `str.replace(old, new)`: left-to-right replacement of every
non-overlapping occurrence.  Every replaced string in the code is a
non-empty regex match, so the degenerate empty-`old` case never arises
and is mapped to the identity. -/
def replaceListAux (old new : List Char) : Nat → List Char → List Char
  | 0, s => s
  | _ + 1, [] => []
  | fuel + 1, c :: rest =>
    if old ≠ [] ∧ old.isPrefixOf (c :: rest) then
      new ++ replaceListAux old new fuel ((c :: rest).drop old.length)
    else
      c :: replaceListAux old new fuel rest

/-- String-level `str.replace`. -/
def replaceStr (s old new : String) : String :=
  String.mk (replaceListAux old.data new.data s.data.length s.data)

/-- A Python `dict[str, str]` preserving insertion order: assignment to
an existing key updates the value in place, otherwise appends. -/
abbrev Repl := List (String × String)

/-- `d[k] = v` on an insertion-ordered dict. -/
def dictInsert (m : Repl) (k v : String) : Repl :=
  if m.any (fun p => p.1 = k) then
    m.map (fun p => if p.1 = k then (k, v) else p)
  else m ++ [(k, v)]

/-- Membership test `k in d`. -/
def dictHasKey (m : Repl) (k : String) : Bool := m.any (fun p => p.1 = k)

/-! ## The configured regular expressions -/

/-- `\d`. -/
def dig : RE := .cls Char.isDigit

/-- `[A-Z]`. -/
def upper : RE := .cls (fun c => 'A' ≤ c ∧ c ≤ 'Z')

/-- `[a-z]`. -/
def lower : RE := .cls (fun c => 'a' ≤ c ∧ c ≤ 'z')

/-- `\b\d{3}-\d{2}-\d{4}\b` (SSN, pattern 0 of both variants). -/
def ssnRE : RE :=
  catList [.wb, repN dig 3, lit '-', repN dig 2, lit '-', repN dig 4, .wb]

/-- `\b\d{4}-\d{4}-\d{4}-\d{4}\b` (credit card, Claude pattern 1). -/
def ccClaudeRE : RE :=
  catList [.wb, repN dig 4, lit '-', repN dig 4, lit '-', repN dig 4, lit '-',
    repN dig 4, .wb]

/-- `[- ]?` (optional credit-card separator, Gemini). -/
def ccSepOpt : RE := reOpt (.cls (fun c => c = '-' ∨ c = ' '))

/-- `\b\d{4}[- ]?\d{4}[- ]?\d{4}[- ]?\d{4}\b` (credit card, Gemini pattern 1). -/
def ccGeminiRE : RE :=
  catList [.wb, repN dig 4, ccSepOpt, repN dig 4, ccSepOpt, repN dig 4, ccSepOpt,
    repN dig 4, .wb]

/-- The class `[A-Za-z0-9._%+-]` (email local part). -/
def emailLocalChar : RE :=
  .cls (fun c => c.isAlpha ∨ c.isDigit ∨ c = '.' ∨ c = '_' ∨ c = '%' ∨ c = '+' ∨ c = '-')

/-- The class `[A-Za-z0-9.-]` (email domain). -/
def emailDomChar : RE :=
  .cls (fun c => c.isAlpha ∨ c.isDigit ∨ c = '.' ∨ c = '-')

/-- The class `[A-Z|a-z]` (email TLD; the literal `|` is a class member). -/
def emailTldChar : RE :=
  .cls (fun c => ('A' ≤ c ∧ c ≤ 'Z') ∨ ('a' ≤ c ∧ c ≤ 'z') ∨ c = '|')

/-- `\b[A-Za-z0-9._%+-]+@[A-Za-z0-9.-]+\.[A-Z|a-z]{2,}\b`
(email, pattern 2 of both variants). -/
def emailRE : RE :=
  catList [.wb, rePlus emailLocalChar, lit '@', rePlus emailDomChar, lit '.',
    repAtLeast emailTldChar 2, .wb]

/-- `\b\d{3}-\d{3}-\d{4}\b` (phone, Claude pattern 3). -/
def phoneClaudeRE : RE :=
  catList [.wb, repN dig 3, lit '-', repN dig 3, lit '-', repN dig 4, .wb]

/-- `[-. ]?` (optional phone separator, Gemini). -/
def phoneSepOpt : RE := reOpt (.cls (fun c => c = '-' ∨ c = '.' ∨ c = ' '))

/-- `\(?\b\d{3}\)?[-. ]?\d{3}[-. ]?\d{4}\b` (phone, Gemini pattern 3). -/
def phoneGeminiRE : RE :=
  catList [reOpt (lit '('), .wb, repN dig 3, reOpt (lit ')'), phoneSepOpt,
    repN dig 3, phoneSepOpt, repN dig 4, .wb]

/-- The Claude variant's `settings.sensitive_patterns`, in declaration order. -/
def claudeSensitivePatterns : List RE :=
  [ssnRE, ccClaudeRE, emailRE, phoneClaudeRE]

/-- The Gemini variant's `settings.sensitive_patterns`, in declaration order. -/
def geminiSensitivePatterns : List RE :=
  [ssnRE, ccGeminiRE, emailRE, phoneGeminiRE]

/-- `[A-Z][a-z]+` (one capitalised word). -/
def capWord : RE := .cat upper (rePlus lower)

/-- The Claude variant's `name_patterns`, in declaration order:
`\b[A-Z][a-z]+ [A-Z][a-z]+\b`, `\bMr\. [A-Z][a-z]+\b`,
`\bMs\. [A-Z][a-z]+\b`, `\bDr\. [A-Z][a-z]+\b`. -/
def namePatterns : List RE :=
  [ catList [.wb, capWord, lit ' ', capWord, .wb],
    catList [.wb, litStr ['M', 'r', '.', ' '], capWord, .wb],
    catList [.wb, litStr ['M', 's', '.', ' '], capWord, .wb],
    catList [.wb, litStr ['D', 'r', '.', ' '], capWord, .wb] ]

/-- The street-type alternation
`(Street|St|Avenue|Ave|Road|Rd|Boulevard|Blvd)` — a capturing group,
so Python's `findall` yields the group text for this pattern. -/
def streetTypeGroup : RE :=
  .grp (altList
    [ litStr ['S', 't', 'r', 'e', 'e', 't'], litStr ['S', 't'],
      litStr ['A', 'v', 'e', 'n', 'u', 'e'], litStr ['A', 'v', 'e'],
      litStr ['R', 'o', 'a', 'd'], litStr ['R', 'd'],
      litStr ['B', 'o', 'u', 'l', 'e', 'v', 'a', 'r', 'd'],
      litStr ['B', 'l', 'v', 'd'] ])

/-- The Claude variant's `location_patterns` with, for each, whether
`findall` yields the capturing-group text (true only for the first,
which contains exactly one group):
`\b[A-Z][a-z]+ [A-Z][a-z]+ (Street|St|Avenue|Ave|Road|Rd|Boulevard|Blvd)\b`
and `\b[A-Z][a-z]+, [A-Z]{2}\b`. -/
def locationPatterns : List (RE × Bool) :=
  [ (catList [.wb, capWord, lit ' ', capWord, lit ' ', streetTypeGroup, .wb], true),
    (catList [.wb, capWord, lit ',', lit ' ', repN upper 2, .wb], false) ]

/-! ## Sensitivity classification and content typing -/

/-- The fixed `sensitive_keywords` lexicon of
`_analyze_content_sensitivity` (identical in both variants). -/
def sensitiveKeywords : List String :=
  ["confidential", "classified", "secret", "private",
   "medical", "health", "diagnosis", "treatment",
   "financial", "bank", "account", "salary", "income",
   "legal", "lawsuit", "attorney", "court"]

/-- `any(re.search(pattern, content) for pattern in sensitive_patterns)`. -/
def hasPatternHit (ps : List RE) (content : String) : Bool :=
  ps.any (fun r => reSearch r content)

/-- `any(keyword in content_lower for keyword in sensitive_keywords)`. -/
def hasKeywordHit (content : String) : Bool :=
  sensitiveKeywords.any (fun k => containsSub (lowerStr content) k)

/-- `any(word in content_lower for word in ['personal', 'private', 'individual'])`. -/
def hasPersonalWord (content : String) : Bool :=
  ["personal", "private", "individual"].any
    (fun w => containsSub (lowerStr content) w)

/-- `_analyze_content_sensitivity` (identical decision logic in both
variants), parametric in the configured sensitive patterns. -/
def analyze_content_sensitivity (ps : List RE) (content : String) : DataSensitivity :=
  if hasPatternHit ps content ∧ hasKeywordHit content then .RESTRICTED
  else if hasPatternHit ps content ∨ hasKeywordHit content then .CONFIDENTIAL
  else if hasPersonalWord content then .PERSONAL
  else .PUBLIC

/-- The Claude variant wraps `_analyze_content_sensitivity` in
`try/except` returning `CONFIDENTIAL` ("default to most restrictive")
when classification itself fails; `fail` models that exceptional path. -/
def claudeSensitivityE (fail : Bool) (ps : List RE) (content : String) : DataSensitivity :=
  if fail then .CONFIDENTIAL else analyze_content_sensitivity ps content

/-- `_classify_content_type` (identical in both variants). -/
def classify_content_type (content : String) : String :=
  let cl := lowerStr content
  if (["medical", "health", "doctor", "diagnosis"]).any (fun w => containsSub cl w) then
    "medical"
  else if (["financial", "bank", "money", "investment"]).any (fun w => containsSub cl w) then
    "financial"
  else if (["legal", "law", "court", "attorney"]).any (fun w => containsSub cl w) then
    "legal"
  else if (["business", "company", "corporate"]).any (fun w => containsSub cl w) then
    "business"
  else "general"

/-! ## Settings, manager state and `set_privacy_mode` -/

/-- `PrivacySettings` dataclass (identical fields in both variants);
the regex pattern strings are embedded as `RE` values. -/
structure PrivacySettings where
  mode : PrivacyMode
  allowed_providers : List AIProvider
  auto_anonymize : Bool
  require_approval : Bool
  max_retention_days : Nat
  sensitive_patterns : List RE
  blocked_content_types : List String

/-- The default settings constructed in `__init__` (identical in both
variants except for the pattern list). -/
def defaultSettings (ps : List RE) : PrivacySettings :=
  { mode := .PRIVATE
    allowed_providers := [.LOCAL]
    auto_anonymize := true
    require_approval := true
    max_retention_days := 30
    sensitive_patterns := ps
    blocked_content_types := ["financial", "medical", "legal"] }

/-- The per-mode mutation of `set_privacy_mode` (identical in both
variants): sets `mode` and then the mode's derived fields. -/
def applyModeDefaults (s : PrivacySettings) (mode : PrivacyMode) : PrivacySettings :=
  let s := { s with mode := mode }
  match mode with
  | .PRIVATE =>
    { s with allowed_providers := [.LOCAL], require_approval := true,
             auto_anonymize := true }
  | .SELECTIVE => { s with require_approval := true, auto_anonymize := true }
  | .OPEN =>
    { s with allowed_providers := allProviders, require_approval := false,
             auto_anonymize := false }

/-- Gemini manager state: the in-memory settings and the persisted copy
(row `id = 1` of the `privacy_settings` table). -/
structure GeminiState where
  settings : PrivacySettings
  saved : Option PrivacySettings

/-- Gemini `_save_settings`: its own `try/except` logs and swallows any
persistence failure (`saveFail`), so the caller never sees an exception
and on failure the stored row is simply left unchanged. -/
def geminiSaveSettings (saveFail : Bool) (st : GeminiState) : GeminiState :=
  if saveFail then st else { st with saved := some st.settings }

/-- Gemini `set_privacy_mode`: mutates the in-memory settings first,
then calls `_save_settings`; since `_save_settings` cannot raise, the
outer `except` branch (which would return `False`) is unreachable and
the method returns `True`. -/
def gemini_set_privacy_mode (saveFail : Bool) (st : GeminiState) (mode : PrivacyMode) :
    Bool × GeminiState :=
  let st' := { st with settings := applyModeDefaults st.settings mode }
  (true, geminiSaveSettings saveFail st')

/-- Claude manager state: like Gemini's, plus the separate
`self.privacy_mode` attribute kept alongside `settings.mode`. -/
structure ClaudeState where
  privacy_mode : PrivacyMode
  settings : PrivacySettings
  saved : Option PrivacySettings

/-- Claude `_save_settings`: also swallows persistence failures. -/
def claudeSaveSettings (saveFail : Bool) (st : ClaudeState) : ClaudeState :=
  if saveFail then st else { st with saved := some st.settings }

/-- Claude `set_privacy_mode`: sets `privacy_mode` and `settings.mode`,
applies the per-mode defaults, then saves; returns `True` (the outer
`except` is unreachable because `_save_settings` cannot raise). -/
def claude_set_privacy_mode (saveFail : Bool) (st : ClaudeState) (mode : PrivacyMode) :
    Bool × ClaudeState :=
  let st' := { st with privacy_mode := mode,
                       settings := applyModeDefaults st.settings mode }
  (true, claudeSaveSettings saveFail st')

/-- The Claude manager's initial state: `privacy_mode = PRIVATE` and the
default settings; nothing persisted yet. -/
def claudeInitialState : ClaudeState :=
  { privacy_mode := .PRIVATE
    settings := defaultSettings claudeSensitivePatterns
    saved := none }

/-! ## `check_ai_permission` -/

/-- Gemini `check_ai_permission`.  `clsFail` models the exceptional path
in which evaluating the content's sensitivity raises (the Gemini
classifier has no internal handler, so the exception with message `msg`
propagates to the method's own `except`, which returns
`(False, f"Error during permission check: {e}")`). -/
def gemini_check_ai_permission (clsFail : Bool) (msg : String) (s : PrivacySettings)
    (content : String) (provider : AIProvider) (_task_type : String) : Bool × String :=
  if provider ∉ s.allowed_providers then
    (false, "Provider " ++ provider.value ++ " not in allowed list")
  else if s.mode = .PRIVATE ∧ provider ≠ .LOCAL then
    (false, "Private mode only allows local AI processing")
  else if clsFail then
    (false, "Error during permission check: " ++ msg)
  else
    let sensitivity := analyze_content_sensitivity s.sensitive_patterns content
    if (sensitivity = .CONFIDENTIAL ∨ sensitivity = .RESTRICTED) ∧ provider ≠ .LOCAL then
      (false, "Content sensitivity level " ++ sensitivity.value ++
        " requires local processing only")
    else
      let content_type := classify_content_type content
      if content_type ∈ s.blocked_content_types then
        (false, "Content type " ++ content_type ++ " is blocked from AI processing")
      else if s.require_approval then
        if ¬ (sensitivity = .CONFIDENTIAL ∨ sensitivity = .RESTRICTED) then
          (true, "Permission granted with user approval simulation")
        else
          (false, "User approval required for sensitive content")
      else
        (true, "Permission granted")

/-- Gemini `check_ai_permission` on the non-exceptional path. -/
def geminiCheck (s : PrivacySettings) (content : String) (provider : AIProvider)
    (task_type : String) : Bool × String :=
  gemini_check_ai_permission false "" s content provider task_type

/-- Claude `check_ai_permission`.  It reads the mode from
`self.privacy_mode` (not `settings.mode`), and its classifier catches
its own exceptions, returning `CONFIDENTIAL`, so `clsFail` cannot reach
this method's `except` branch. -/
def claude_check_ai_permission (clsFail : Bool) (pm : PrivacyMode) (s : PrivacySettings)
    (content : String) (provider : AIProvider) (_task_type : String) : Bool × String :=
  if provider ∉ s.allowed_providers then
    (false, "Provider " ++ provider.value ++ " not in allowed list")
  else if pm = .PRIVATE ∧ provider ≠ .LOCAL then
    (false, "Private mode only allows local AI processing")
  else
    let sensitivity := claudeSensitivityE clsFail s.sensitive_patterns content
    if (sensitivity = .CONFIDENTIAL ∨ sensitivity = .RESTRICTED) ∧ provider ≠ .LOCAL then
      (false, "Content sensitivity level " ++ sensitivity.value ++
        " requires local processing only")
    else
      let content_type := classify_content_type content
      if content_type ∈ s.blocked_content_types then
        (false, "Content type " ++ content_type ++ " is blocked from AI processing")
      else if s.require_approval then
        if ¬ (sensitivity = .CONFIDENTIAL ∨ sensitivity = .RESTRICTED) then
          (true, "Permission granted with user approval simulation")
        else
          (false, "User approval required for sensitive content")
      else
        (true, "Permission granted")

/-- Claude `check_ai_permission` on the non-exceptional path. -/
def claudeCheck (pm : PrivacyMode) (s : PrivacySettings) (content : String)
    (provider : AIProvider) (task_type : String) : Bool × String :=
  claude_check_ai_permission false pm s content provider task_type

/-! ## `anonymize_content` -/

/-- Inner loop of the Claude sensitive-pattern phase:
`for match in matches: replacements[match] = placeholder;
text = text.replace(match, placeholder)` — each match is recorded and
replaced immediately, mutating the text mid-scan. -/
def claudeApplyMatches (placeholder : String) :
    List String → String × Repl → String × Repl
  | [], acc => acc
  | m :: rest, (text, repl) =>
    claudeApplyMatches placeholder rest
      (replaceStr text m placeholder, dictInsert repl m placeholder)

/-- Claude sensitive-pattern phase: for each pattern (indexed, in
declaration order) run `findall` on the *current* text and replace each
match with `"[REDACTED_<i>]"` before the next pattern is scanned. -/
def claudeSensitivePhase (ps : List RE) (i : Nat) : String × Repl → String × Repl
  | acc =>
    match ps with
    | [] => acc
    | p :: rest =>
      let placeholder := "[REDACTED_" ++ toString i ++ "]"
      let acc' := claudeApplyMatches placeholder (reFindAll p false acc.1) acc
      claudeSensitivePhase rest (i + 1) acc'

/-- Inner loop of the Claude name/location phases:
`if match not in replacements: replacements[match] = placeholder;
text = text.replace(match, placeholder)` — a match whose text is already
a key is skipped entirely. -/
def claudeApplyNewMatches (placeholder : String) :
    List String → String × Repl → String × Repl
  | [], acc => acc
  | m :: rest, (text, repl) =>
    if dictHasKey repl m then claudeApplyNewMatches placeholder rest (text, repl)
    else
      claudeApplyNewMatches placeholder rest
        (replaceStr text m placeholder, dictInsert repl m placeholder)

/-- Claude name/location phase over a pattern list (with each pattern's
`findall` group behaviour) and its fixed placeholder. -/
def claudeHeuristicPhase (placeholder : String) :
    List (RE × Bool) → String × Repl → String × Repl
  | [], acc => acc
  | (p, useGroup) :: rest, acc =>
    let acc' := claudeApplyNewMatches placeholder (reFindAll p useGroup acc.1) acc
    claudeHeuristicPhase placeholder rest acc'

/-- Claude `anonymize_content`: at levels `"standard"` and
`"aggressive"` the configured sensitive patterns (`ps`, from
`self.settings.sensitive_patterns`) and then the name patterns are
applied; at `"aggressive"` the location patterns are applied in
addition; any other level returns the text unchanged. -/
def claude_anonymize_content (ps : List RE) (text : String)
    (anonymization_level : String) : String × Repl :=
  let acc :=
    if anonymization_level = "standard" ∨ anonymization_level = "aggressive" then
      claudeHeuristicPhase "[NAME]" (namePatterns.map (fun p => (p, false)))
        (claudeSensitivePhase ps 0 (text, []))
    else (text, [])
  if anonymization_level = "aggressive" then
    claudeHeuristicPhase "[LOCATION]" locationPatterns acc
  else acc

/-- The scan half of the Gemini anonymizer: collect the replacement map
for every pattern against the *original* text, without modifying it. -/
def scanPatterns (text : String) (ps : List RE) (i : Nat) (repl : Repl) : Repl :=
  match ps with
  | [] => repl
  | p :: rest =>
    let placeholder := "[REDACTED_" ++ toString i ++ "]"
    let repl' := (reFindAll p false text).foldl
      (fun acc m => dictInsert acc m placeholder) repl
    scanPatterns text rest (i + 1) repl'

/-- The replace half: apply every collected replacement, in dict
(insertion) order. -/
def applyRepl (text : String) (repl : Repl) : String :=
  repl.foldl (fun acc kv => replaceStr acc kv.1 kv.2) text

/-- Gemini `anonymize_content`: at levels `"standard"` and
`"aggressive"` it first completes the scan of all sensitive patterns
over the unmodified text and only then performs the replacements; it
has no name/location heuristics at any level. -/
def gemini_anonymize_content (ps : List RE) (text : String)
    (anonymization_level : String) : String × Repl :=
  if anonymization_level = "standard" ∨ anonymization_level = "aggressive" then
    let repl := scanPatterns text ps 0 []
    (applyRepl text repl, repl)
  else (text, [])

/-- The scan-then-replace reference algorithm stated by the spec:
complete the full scan of all configured sensitive patterns, collecting
the substring-to-placeholder map, and only then perform the
replacements. -/
def scanThenReplaceRef (ps : List RE) (text : String) : String × Repl :=
  let repl := scanPatterns text ps 0 []
  (applyRepl text repl, repl)

/-! ## The usage ledger and retention purge -/

/-- One row of the `ai_usage_log` table (the `AIUsageLog` dataclass);
timestamps are integer second counts. -/
structure AIUsageLog where
  content_hash : String
  provider : AIProvider
  task_type : String
  timestamp : Int
  data_sent_size : Nat
  anonymized : Bool
  user_approved : Bool
  retention_days : Nat
  expires_at : Int
deriving DecidableEq, Repr

/-- One row of the `data_inventory` table (only the columns the purge
reads). -/
structure InventoryEntry where
  content_hash : String
  content_type : String
  sensitivity_level : String
  created_at : Int
deriving DecidableEq, Repr

/-- Seconds in a day (`timedelta(days = n)` / SQLite `'-n days'`). -/
def daySeconds : Int := 86400

/-- `log_ai_usage` (ledger effect, identical in both variants): append
one immutable row with `expires_at = timestamp + retention_days` days.
The SHA-256 fingerprint is abstracted as `hashFn`.  The two variants
encode the timestamps differently on disk — Claude binds `datetime`
objects (stored by the sqlite3 adapter as space-separated text), Gemini
stores `isoformat()` strings (`'T'`-separated) — which does not change
the row's logical content but does change how the purge's TEXT
comparison behaves; the two purge embeddings below account for that. -/
def log_ai_usage (hashFn : String → String) (s : PrivacySettings)
    (logs : List AIUsageLog) (content : String) (provider : AIProvider)
    (task_type : String) (data_sent_size : Nat) (anonymized user_approved : Bool)
    (now : Int) : String × List AIUsageLog :=
  let content_hash := hashFn content
  let entry : AIUsageLog :=
    { content_hash := content_hash
      provider := provider
      task_type := task_type
      timestamp := now
      data_sent_size := data_sent_size
      anonymized := anonymized
      user_approved := user_approved
      retention_days := s.max_retention_days
      expires_at := now + s.max_retention_days * daySeconds }
  (content_hash, logs ++ [entry])

/-- Claude `cleanup_expired_data`:
`DELETE FROM ai_usage_log WHERE expires_at < datetime('now')` and
`DELETE FROM data_inventory WHERE created_at < datetime('now', '-N days')`.
The Claude variant binds `datetime` objects on insert, which the
sqlite3 adapter stores as space-separated text; against the likewise
space-separated `datetime('now')` the lexicographic TEXT comparison is
chronological at second granularity, so the log deletion is the strict
comparison `expires_at < now` in seconds (a row whose stored value
carries a fractional-second suffix at the same second still compares
greater and survives).  Returns the total number of deleted rows
together with the surviving tables. -/
def claude_cleanup_expired_data (now : Int) (retention_days : Nat)
    (logs : List AIUsageLog) (inv : List InventoryEntry) :
    Nat × List AIUsageLog × List InventoryEntry :=
  let keptLogs := logs.filter (fun r => ¬ r.expires_at < now)
  let removedLogs := (logs.filter (fun r => r.expires_at < now)).length
  let cutoff := now - retention_days * daySeconds
  let keptInv := inv.filter (fun e => ¬ e.created_at < cutoff)
  let removedInv := (inv.filter (fun e => e.created_at < cutoff)).length
  (removedLogs + removedInv, keptLogs, keptInv)

/-- The calendar-day index of a second count (day boundaries at
multiples of 86400, floor division). -/
def dayNumber (t : Int) : Int := Int.fdiv t daySeconds

/-- Gemini `cleanup_expired_data`: the same two `DELETE` statements,
but the Gemini variant stores `expires_at.isoformat()` — a
`'T'`-separated string — while `datetime('now')` yields space-separated
text, and SQLite compares the two lexicographically as TEXT.  The first
ten characters are the `YYYY-MM-DD` date; when the dates are equal the
next characters compared are `'T'` versus `' '` and `'T' > ' '`, so the
stored value always compares greater.  The log deletion therefore fires
exactly when the expiry's calendar *date* is strictly before the
current date: a record expiring earlier the same day survives until the
day advances.  The inventory deletion compares `created_at` text in the
space-separated `CURRENT_TIMESTAMP` default format and stays
second-granular. -/
def gemini_cleanup_expired_data (now : Int) (retention_days : Nat)
    (logs : List AIUsageLog) (inv : List InventoryEntry) :
    Nat × List AIUsageLog × List InventoryEntry :=
  let keptLogs := logs.filter (fun r => ¬ dayNumber r.expires_at < dayNumber now)
  let removedLogs :=
    (logs.filter (fun r => dayNumber r.expires_at < dayNumber now)).length
  let cutoff := now - retention_days * daySeconds
  let keptInv := inv.filter (fun e => ¬ e.created_at < cutoff)
  let removedInv := (inv.filter (fun e => e.created_at < cutoff)).length
  (removedLogs + removedInv, keptLogs, keptInv)

/-! ## Spec-side reference definitions and concrete example states -/

/-- The spec's four-row classification decision table, evaluated in
order with first match winning. -/
def specDecisionTable (pat kw personal : Bool) : DataSensitivity :=
  if pat ∧ kw then .RESTRICTED
  else if pat ∨ kw then .CONFIDENTIAL
  else if personal then .PERSONAL
  else .PUBLIC

/-- The example scenario's settings:
`{mode = SELECTIVE, allowed_providers = {OPENAI, LOCAL},
require_approval = true}`, other fields at their defaults. -/
def selectiveSettings (ps : List RE) : PrivacySettings :=
  { defaultSettings ps with
      mode := .SELECTIVE
      allowed_providers := [.OPENAI, .LOCAL]
      require_approval := true }

/-- The example scenario's content. -/
def ssnContent : String := "My SSN is 123-45-6789 and I need a summary"

/-- Settings as produced by `set_privacy_mode(OPEN)` on the defaults. -/
def openSettings (ps : List RE) : PrivacySettings :=
  applyModeDefaults (defaultSettings ps) .OPEN

/-! ## Helper lemmas -/

/-- A string containing `"private"` (case-folded) triggers the
sensitive-keyword hit, because `'private'` is in the keyword lexicon. -/
theorem keywordHit_of_private (c : String)
    (h : containsSub (lowerStr c) "private" = true) : hasKeywordHit c = true := by
  have : "private" ∈ sensitiveKeywords := by decide
  simp only [hasKeywordHit, List.any_eq_true]
  exact ⟨"private", this, h⟩

/-- `_classify_content_type` only ever returns one of its five literal
category tags. -/
theorem classify_content_type_mem (c : String) :
    classify_content_type c ∈
      (["medical", "financial", "legal", "business", "general"] : List String) := by
  unfold classify_content_type
  dsimp only
  split_ifs <;> simp

/-- Unequal lengths give unequal strings. -/
theorem ne_of_length_ne {a b : String} (h : a.length ≠ b.length) : a ≠ b :=
  fun e => h (e ▸ rfl)

/-- A string of the form `a ++ x ++ c` with `|a| + |c| ≥ 21` is never
the 20-character quota reason. -/
theorem append3_ne_daily (a c : String) (x : String)
    (h : 21 ≤ a.length + c.length) : a ++ x ++ c ≠ "daily limit exceeded" := by
  apply ne_of_length_ne
  have h20 : ("daily limit exceeded" : String).length = 20 := rfl
  rw [String.length_append, String.length_append, h20]
  omega

/-- A string of the form `a ++ x` with `|a| ≥ 21` is never the
20-character quota reason. -/
theorem append2_ne_daily (a : String) (x : String)
    (h : 21 ≤ a.length) : a ++ x ≠ "daily limit exceeded" := by
  apply ne_of_length_ne
  have h20 : ("daily limit exceeded" : String).length = 20 := rfl
  rw [String.length_append, h20]
  omega

/-! ## Claim theorems -/

/-- C4: for every pattern configuration and content string,
`_analyze_content_sensitivity` implements the ordered four-row decision
table with first match winning (pattern hit and keyword hit →
RESTRICTED; exactly one of the two → CONFIDENTIAL; otherwise a
personal-keyword hit → PERSONAL; otherwise PUBLIC); in particular the
empty string classifies as PUBLIC under both variants' default
patterns. -/
theorem classify_implements_decision_table :
    (∀ (ps : List RE) (content : String),
      analyze_content_sensitivity ps content =
        specDecisionTable (hasPatternHit ps content) (hasKeywordHit content)
          (hasPersonalWord content))
    ∧ analyze_content_sensitivity claudeSensitivePatterns "" = .PUBLIC
    ∧ analyze_content_sensitivity geminiSensitivePatterns "" = .PUBLIC := by
  refine ⟨fun ps content => ?_, by decide, by decide⟩
  unfold analyze_content_sensitivity specDecisionTable
  rfl

/-- C10: classification returns PERSONAL exactly when no configured
pattern matches, no fixed sensitive keyword occurs, and the case-folded
content contains `"personal"` or `"individual"`; and content containing
`"private"` but matching no pattern is classified CONFIDENTIAL (not
PERSONAL) because `"private"` is also a sensitive keyword. -/
theorem classify_personal_characterisation :
    ∀ (ps : List RE) (content : String),
      (analyze_content_sensitivity ps content = .PERSONAL ↔
        (hasPatternHit ps content = false ∧ hasKeywordHit content = false ∧
          (containsSub (lowerStr content) "personal" = true ∨
            containsSub (lowerStr content) "individual" = true)))
      ∧ (hasPatternHit ps content = false →
          containsSub (lowerStr content) "private" = true →
          analyze_content_sensitivity ps content = .CONFIDENTIAL) := by
  intro ps content
  constructor
  · cases hpat : hasPatternHit ps content <;> cases hkw : hasKeywordHit content
    · have hpriv : containsSub (lowerStr content) "private" = false := by
        cases h : containsSub (lowerStr content) "private"
        · rfl
        · rw [keywordHit_of_private content h] at hkw; exact hkw
      cases hpers : containsSub (lowerStr content) "personal" <;>
        cases hind : containsSub (lowerStr content) "individual" <;>
          simp [analyze_content_sensitivity, hpat, hkw, hasPersonalWord, hpriv,
            hpers, hind]
    · simp [analyze_content_sensitivity, hpat, hkw]
    · simp [analyze_content_sensitivity, hpat, hkw]
    · simp [analyze_content_sensitivity, hpat, hkw]
  · intro hpat hpriv
    have hkw := keywordHit_of_private content hpriv
    simp [analyze_content_sensitivity, hpat, hkw]

/-- Witness for C10 at a concrete input: `"this is private stuff"`
matches no default pattern, contains `"private"`, and is classified
CONFIDENTIAL. -/
theorem classify_personal_characterisation_witness :
    analyze_content_sensitivity claudeSensitivePatterns "this is private stuff" =
      .CONFIDENTIAL :=
  (classify_personal_characterisation claudeSensitivePatterns
    "this is private stuff").2 (by decide) (by decide)

/-- C1: in PRIVATE mode every provider other than LOCAL is denied by
both variants, for every settings state, content and task, regardless
of classification (the Claude variant reads the mode from its
`privacy_mode` attribute, which `__init__` and `set_privacy_mode` keep
equal to `settings.mode`). -/
theorem private_mode_denies_nonlocal :
    (∀ (s : PrivacySettings) (content task : String) (p : AIProvider)
        (clsFail : Bool) (msg : String),
      s.mode = PrivacyMode.PRIVATE → p ≠ AIProvider.LOCAL →
      (gemini_check_ai_permission clsFail msg s content p task).1 = false)
    ∧ (∀ (pm : PrivacyMode) (s : PrivacySettings) (content task : String)
        (p : AIProvider) (clsFail : Bool),
      pm = PrivacyMode.PRIVATE → p ≠ AIProvider.LOCAL →
      (claude_check_ai_permission clsFail pm s content p task).1 = false) := by
  constructor
  · intro s content task p clsFail msg hmode hp
    by_cases hmem : p ∈ s.allowed_providers
    · simp [gemini_check_ai_permission, hmem, hmode, hp]
    · simp [gemini_check_ai_permission, hmem]
  · intro pm s content task p clsFail hmode hp
    by_cases hmem : p ∈ s.allowed_providers
    · simp [claude_check_ai_permission, hmem, hmode, hp]
    · simp [claude_check_ai_permission, hmem]

/-- Witness for C1: with the default (PRIVATE) settings the OPENAI
provider is denied by both variants on a concrete call. -/
theorem private_mode_denies_nonlocal_witness :
    (gemini_check_ai_permission false "" (defaultSettings geminiSensitivePatterns)
        "hello" .OPENAI "summarize").1 = false
    ∧ (claude_check_ai_permission false .PRIVATE
        (defaultSettings claudeSensitivePatterns) "hello" .OPENAI "summarize").1 = false :=
  ⟨private_mode_denies_nonlocal.1 (defaultSettings geminiSensitivePatterns)
      "hello" "summarize" .OPENAI false "" rfl (by decide),
    private_mode_denies_nonlocal.2 .PRIVATE (defaultSettings claudeSensitivePatterns)
      "hello" "summarize" .OPENAI false rfl (by decide)⟩

/-- C3 counterexample: in the example scenario both variants classify
the SSN content as CONFIDENTIAL but deny at the sensitivity gate (step
4) with the "requires local processing only" reason — not with the
approval-gate reason the claim states, which is never reached. -/
theorem example_scenario_reason_counterexample :
    analyze_content_sensitivity geminiSensitivePatterns ssnContent = .CONFIDENTIAL
    ∧ (geminiCheck (selectiveSettings geminiSensitivePatterns) ssnContent
        .OPENAI "summary").2 ≠ "User approval required for sensitive content"
    ∧ (claudeCheck .SELECTIVE (selectiveSettings claudeSensitivePatterns) ssnContent
        .OPENAI "summary").2 ≠ "User approval required for sensitive content" := by
  refine ⟨by decide, by decide, by decide⟩

/-- C3 amended: the scenario's classification is CONFIDENTIAL as
claimed (pattern hit, no keyword hit), but the denial both variants
produce is the sensitivity-gate denial
`"Content sensitivity level confidential requires local processing
only"`, because that gate precedes the approval gate. -/
theorem example_scenario_denies_at_sensitivity_gate :
    analyze_content_sensitivity geminiSensitivePatterns ssnContent = .CONFIDENTIAL
    ∧ analyze_content_sensitivity claudeSensitivePatterns ssnContent = .CONFIDENTIAL
    ∧ hasPatternHit geminiSensitivePatterns ssnContent = true
    ∧ hasKeywordHit ssnContent = false
    ∧ geminiCheck (selectiveSettings geminiSensitivePatterns) ssnContent
        .OPENAI "summary" =
      (false, "Content sensitivity level confidential requires local processing only")
    ∧ claudeCheck .SELECTIVE (selectiveSettings claudeSensitivePatterns) ssnContent
        .OPENAI "summary" =
      (false, "Content sensitivity level confidential requires local processing only") := by
  refine ⟨by decide, by decide, by decide, by decide, by decide, by decide⟩

/-- C2 counterexample: there is no daily-quota mechanism.  With OPEN
settings, after one `log_ai_usage` call for OPENAI (so, for any
would-be `daily_limit` of 1, `usage_count_today >= daily_limit` on the
same day), the next `check_ai_permission` for OPENAI still allows with
reason `"Permission granted"` instead of denying with the quota
reason. -/
theorem no_daily_quota_counterexample :
    (log_ai_usage (fun c => c) (openSettings geminiSensitivePatterns) []
        "hello" .OPENAI "summarize" 5 false false 0).2.length = 1
    ∧ geminiCheck (openSettings geminiSensitivePatterns) "hello" .OPENAI "summarize" =
        (true, "Permission granted")
    ∧ claudeCheck .OPEN (openSettings claudeSensitivePatterns) "hello" .OPENAI
        "summarize" = (true, "Permission granted") := by
  refine ⟨by decide, by decide, by decide⟩

/-- C2 amended: neither variant implements a daily quota.
`check_ai_permission` never returns the reason
`"daily limit exceeded"` on any input or failure path (and, being a
function of the settings alone, its result cannot depend on the usage
ledger that `log_ai_usage` appends to). -/
theorem no_daily_quota_reason :
    ∀ (clsFail : Bool) (msg : String) (pm : PrivacyMode) (s : PrivacySettings)
      (content : String) (p : AIProvider) (task : String),
      (gemini_check_ai_permission clsFail msg s content p task).2 ≠
        "daily limit exceeded"
      ∧ (claude_check_ai_permission clsFail pm s content p task).2 ≠
        "daily limit exceeded" := by
  intro clsFail msg pm s content p task
  constructor
  · unfold gemini_check_ai_permission
    dsimp only
    split_ifs <;>
      first
        | decide
        | exact append3_ne_daily _ _ _ (by decide)
        | exact append2_ne_daily _ _ (by decide)
  · unfold claude_check_ai_permission
    dsimp only
    split_ifs <;>
      first
        | decide
        | exact append3_ne_daily _ _ _ (by decide)

/-- Witness for C2's amended theorem at a concrete input. -/
theorem no_daily_quota_reason_witness :
    (gemini_check_ai_permission false "" (openSettings geminiSensitivePatterns)
        "hello" .OPENAI "summarize").2 ≠ "daily limit exceeded"
    ∧ (claude_check_ai_permission false .OPEN (openSettings claudeSensitivePatterns)
        "hello" .OPENAI "summarize").2 ≠ "daily limit exceeded" :=
  ⟨(no_daily_quota_reason false "" .OPEN (openSettings geminiSensitivePatterns)
      "hello" .OPENAI "summarize").1,
    (no_daily_quota_reason false "" .OPEN (openSettings claudeSensitivePatterns)
      "hello" .OPENAI "summarize").2⟩

/-- C5 counterexample: the Claude variant replaces while scanning, so
on `"555-123-4567@x.cc and a555-123-4567"` the email replacement
(pattern 2) destroys the phone match (pattern 3) before phone is
scanned, and the trailing phone digits stay unredacted — the output
differs from the scan-then-replace reference, which redacts them. -/
theorem anonymize_interleaving_counterexample :
    (claude_anonymize_content claudeSensitivePatterns
        "555-123-4567@x.cc and a555-123-4567" "standard").1 ≠
      (scanThenReplaceRef claudeSensitivePatterns
        "555-123-4567@x.cc and a555-123-4567").1 := by
  decide

/-- C5 amended: the Gemini variant's `anonymize_content` is exactly the
scan-then-replace reference algorithm (full scan of all configured
patterns over the unmodified input, then the replacements); the Claude
variant interleaves replacement with scanning and diverges from that
reference, e.g. leaving `a555-123-4567` unredacted on the input above
(where the reference produces `a[REDACTED_3]`). -/
theorem gemini_anonymize_is_scan_then_replace :
    (∀ (ps : List RE) (text : String),
      gemini_anonymize_content ps text "standard" = scanThenReplaceRef ps text
      ∧ gemini_anonymize_content ps text "aggressive" = scanThenReplaceRef ps text)
    ∧ (claude_anonymize_content claudeSensitivePatterns
          "555-123-4567@x.cc and a555-123-4567" "standard").1 =
        "[REDACTED_2] and a555-123-4567"
    ∧ (scanThenReplaceRef claudeSensitivePatterns
          "555-123-4567@x.cc and a555-123-4567").1 =
        "[REDACTED_2] and a[REDACTED_3]" := by
  refine ⟨fun ps text => ⟨?_, ?_⟩, by decide, by decide⟩
  · simp [gemini_anonymize_content, scanThenReplaceRef]
  · simp [gemini_anonymize_content, scanThenReplaceRef]

/-- C6 counterexample: the Claude variant applies the name heuristic at
level `"standard"` (redacting `"John Smith"` to `"[NAME]"` although no
configured sensitive pattern matches it), and the Gemini variant
applies no name/location heuristic even at `"aggressive"`. -/
theorem heuristics_level_counterexample :
    (claude_anonymize_content claudeSensitivePatterns "John Smith" "standard").1 =
      "[NAME]"
    ∧ (gemini_anonymize_content geminiSensitivePatterns "John Smith"
        "aggressive") = ("John Smith", []) := by
  refine ⟨by decide, by decide⟩

/-- C6 amended: the Gemini anonymizer behaves identically at
`"standard"` and `"aggressive"` (sensitive patterns only, no
name/location heuristics at any level); the Claude anonymizer applies
the `"[NAME]"` heuristics at `"standard"` as well as `"aggressive"`,
and only its `"[LOCATION]"` heuristics are exclusive to
`"aggressive"`. -/
theorem heuristics_levels_by_variant :
    (∀ (ps : List RE) (t lvl : String),
      gemini_anonymize_content ps t lvl =
        if lvl = "standard" ∨ lvl = "aggressive" then
          gemini_anonymize_content ps t "standard"
        else (t, []))
    ∧ (claude_anonymize_content claudeSensitivePatterns "John Smith" "standard").1 =
        "[NAME]"
    ∧ (claude_anonymize_content claudeSensitivePatterns "Paris, TX" "standard").1 =
        "Paris, TX"
    ∧ (claude_anonymize_content claudeSensitivePatterns "Paris, TX" "aggressive").1 =
        "[LOCATION]" := by
  refine ⟨fun ps t lvl => ?_, by decide, by decide, by decide⟩
  by_cases h : lvl = "standard" ∨ lvl = "aggressive"
  · simp [gemini_anonymize_content, h]
  · simp [gemini_anonymize_content, h]

/-- A concrete ledger record expiring at time 100. -/
def boundaryRecord : AIUsageLog :=
  { content_hash := "h"
    provider := .OPENAI
    task_type := "summarize"
    timestamp := 0
    data_sent_size := 5
    anonymized := false
    user_approved := true
    retention_days := 30
    expires_at := 100 }

/-- C7 counterexample: at `now = expires_at` the boundary record is
*not* removed by either variant (count 0, record still present),
contrary to the claimed inclusive `expires_at <= now`; and the Gemini
variant, whose TEXT comparison is decided by the calendar date, keeps
the record even at `expires_at + 1s` (same day), contrary to the
claimed absence after `purge_expired(expires_at + 1s)`. -/
theorem purge_boundary_counterexample :
    claude_cleanup_expired_data 100 30 [boundaryRecord] [] =
      (0, [boundaryRecord], [])
    ∧ gemini_cleanup_expired_data 100 30 [boundaryRecord] [] =
      (0, [boundaryRecord], [])
    ∧ gemini_cleanup_expired_data 101 30 [boundaryRecord] [] =
      (0, [boundaryRecord], []) := by
  refine ⟨by decide, by decide, by decide⟩

/-- C7 amended: the Claude purge removes exactly the ledger records
with `expires_at < now` at second granularity (a record with
`expires_at = now` survives; still present when purging at
`expires_at - 1s`, removed at `expires_at + 1s`); the Gemini purge —
whose lexicographic TEXT comparison of the `'T'`-separated stored
value against space-separated `datetime('now')` is decided by the
date prefix — removes exactly the records whose expiry calendar date
is strictly before the current date, so a record expiring earlier the
same day survives (even at `expires_at + 1s`) and is removed once the
day advances.  Both return the number of removed ledger rows plus the
number of removed inventory rows. -/
theorem purge_strict_semantics :
    ∀ (now : Int) (retention : Nat) (logs : List AIUsageLog)
      (inv : List InventoryEntry) (r : AIUsageLog),
      (r ∈ (claude_cleanup_expired_data now retention logs inv).2.1 ↔
        r ∈ logs ∧ now ≤ r.expires_at)
      ∧ (claude_cleanup_expired_data now retention logs inv).1 =
          (logs.filter (fun x => x.expires_at < now)).length +
            (inv.filter (fun e => e.created_at < now - retention * daySeconds)).length
      ∧ (r ∈ logs →
          r ∈ (claude_cleanup_expired_data (r.expires_at - 1) retention logs inv).2.1)
      ∧ (r ∈ logs →
          r ∉ (claude_cleanup_expired_data (r.expires_at + 1) retention logs inv).2.1)
      ∧ (r ∈ (gemini_cleanup_expired_data now retention logs inv).2.1 ↔
          r ∈ logs ∧ dayNumber now ≤ dayNumber r.expires_at)
      ∧ (gemini_cleanup_expired_data now retention logs inv).1 =
          (logs.filter (fun x => dayNumber x.expires_at < dayNumber now)).length +
            (inv.filter (fun e => e.created_at < now - retention * daySeconds)).length
      ∧ (r ∈ logs → dayNumber now = dayNumber r.expires_at →
          r ∈ (gemini_cleanup_expired_data now retention logs inv).2.1)
      ∧ (r ∈ logs → dayNumber r.expires_at < dayNumber now →
          r ∉ (gemini_cleanup_expired_data now retention logs inv).2.1) := by
  intro now retention logs inv r
  have hmemC : ∀ (t : Int),
      r ∈ (claude_cleanup_expired_data t retention logs inv).2.1 ↔
        r ∈ logs ∧ t ≤ r.expires_at := by
    intro t
    simp [claude_cleanup_expired_data, List.mem_filter, not_lt]
  have hmemG :
      r ∈ (gemini_cleanup_expired_data now retention logs inv).2.1 ↔
        r ∈ logs ∧ dayNumber now ≤ dayNumber r.expires_at := by
    simp [gemini_cleanup_expired_data, List.mem_filter, not_lt]
  refine ⟨hmemC now, rfl, ?_, ?_, hmemG, rfl, ?_, ?_⟩
  · intro h
    exact (hmemC (r.expires_at - 1)).mpr ⟨h, by omega⟩
  · intro h hc
    have := ((hmemC (r.expires_at + 1)).mp hc).2
    omega
  · intro h hd
    exact hmemG.mpr ⟨h, by omega⟩
  · intro h hd hc
    have := (hmemG.mp hc).2
    omega

/-- Witness for C7's amended theorem: the concrete record expiring at
second 100 of day 0 is present under Claude's purge one second before
its expiry and removed one second after; under Gemini's purge it is
still present one second after its expiry (same calendar day) and
removed when purging on the next day. -/
theorem purge_strict_semantics_witness :
    boundaryRecord ∈
      (claude_cleanup_expired_data (boundaryRecord.expires_at - 1) 30
        [boundaryRecord] []).2.1
    ∧ boundaryRecord ∉
      (claude_cleanup_expired_data (boundaryRecord.expires_at + 1) 30
        [boundaryRecord] []).2.1
    ∧ boundaryRecord ∈
      (gemini_cleanup_expired_data 101 30 [boundaryRecord] []).2.1
    ∧ boundaryRecord ∉
      (gemini_cleanup_expired_data 86400 30 [boundaryRecord] []).2.1 :=
  ⟨(purge_strict_semantics 0 30 [boundaryRecord] [] boundaryRecord).2.2.1
      (by decide),
    (purge_strict_semantics 0 30 [boundaryRecord] [] boundaryRecord).2.2.2.1
      (by decide),
    (purge_strict_semantics 101 30 [boundaryRecord] [] boundaryRecord).2.2.2.2.2.2.1
      (by decide) (by decide),
    (purge_strict_semantics 86400 30 [boundaryRecord] [] boundaryRecord).2.2.2.2.2.2.2
      (by decide) (by decide)⟩

/-- C8 counterexample: with persistence failing, Claude
`set_privacy_mode(OPEN)` on the initial (PRIVATE) state still returns
`True` (no `ConfigurationError` — `_save_settings` swallows the
exception) and the in-memory settings have already been switched to the
OPEN-mode values, while nothing was persisted. -/
theorem set_mode_failure_counterexample :
    (claude_set_privacy_mode true claudeInitialState .OPEN).1 = true
    ∧ (claude_set_privacy_mode true claudeInitialState .OPEN).2.settings.mode =
        PrivacyMode.OPEN
    ∧ (claude_set_privacy_mode true claudeInitialState .OPEN).2.settings.require_approval =
        false
    ∧ claudeInitialState.settings.mode = PrivacyMode.PRIVATE
    ∧ (claude_set_privacy_mode true claudeInitialState .OPEN).2.saved = none :=
  ⟨rfl, rfl, rfl, rfl, rfl⟩

/-- C8 amended: a persistence failure during `set_privacy_mode` is
swallowed (`_save_settings` catches and logs it): the method still
returns `True`, the in-memory settings already carry the new mode's
derived values, and only the persisted copy is left unchanged; no
`ConfigurationError` reaches the caller in either variant. -/
theorem set_mode_swallows_persistence_failure :
    ∀ (fail : Bool) (cst : ClaudeState) (gst : GeminiState) (m : PrivacyMode),
      (claude_set_privacy_mode fail cst m).1 = true
      ∧ (claude_set_privacy_mode fail cst m).2.settings =
          applyModeDefaults cst.settings m
      ∧ (claude_set_privacy_mode fail cst m).2.privacy_mode = m
      ∧ (fail = true → (claude_set_privacy_mode fail cst m).2.saved = cst.saved)
      ∧ (gemini_set_privacy_mode fail gst m).1 = true
      ∧ (gemini_set_privacy_mode fail gst m).2.settings =
          applyModeDefaults gst.settings m
      ∧ (fail = true → (gemini_set_privacy_mode fail gst m).2.saved = gst.saved) := by
  intro fail cst gst m
  refine ⟨rfl, ?_, ?_, ?_, rfl, ?_, ?_⟩
  · cases fail <;> rfl
  · cases fail <;> rfl
  · intro h; subst h; rfl
  · cases fail <;> rfl
  · intro h; subst h; rfl

/-- Witness for C8's amended theorem at a concrete failing call. -/
theorem set_mode_swallows_persistence_failure_witness :
    (claude_set_privacy_mode true claudeInitialState .SELECTIVE).2.saved =
      claudeInitialState.saved
    ∧ (gemini_set_privacy_mode true
        ⟨defaultSettings geminiSensitivePatterns, none⟩ .SELECTIVE).2.saved =
      (none : Option PrivacySettings) :=
  ⟨(set_mode_swallows_persistence_failure true claudeInitialState
      ⟨defaultSettings geminiSensitivePatterns, none⟩ .SELECTIVE).2.2.2.1 rfl,
    (set_mode_swallows_persistence_failure true claudeInitialState
      ⟨defaultSettings geminiSensitivePatterns, none⟩ .SELECTIVE).2.2.2.2.2.2 rfl⟩

/-- C9 counterexample: when classification fails, the Claude variant
substitutes CONFIDENTIAL and continues, so for the LOCAL provider with
`require_approval = false` the call is *allowed* — the engine does not
always deny when classification cannot run. -/
theorem fail_closed_counterexample :
    claude_check_ai_permission true .PRIVATE
      { defaultSettings claudeSensitivePatterns with require_approval := false }
      "x" .LOCAL "t" = (true, "Permission granted") := by
  decide

/-- C9 amended: on a classification failure the Gemini variant denies
for every input (its top-level `except` returns `False`), and the
Claude variant — whose classifier catches internally and returns
CONFIDENTIAL — denies for every provider other than LOCAL; neither ever
defaults to a PUBLIC-based allow. -/
theorem fail_closed_by_variant :
    ∀ (msg : String) (pm : PrivacyMode) (s : PrivacySettings) (content : String)
      (p : AIProvider) (task : String),
      (gemini_check_ai_permission true msg s content p task).1 = false
      ∧ (p ≠ AIProvider.LOCAL →
          (claude_check_ai_permission true pm s content p task).1 = false) := by
  intro msg pm s content p task
  constructor
  · unfold gemini_check_ai_permission
    dsimp only
    split_ifs with g1 g2 g3 <;> first | rfl | exact absurd rfl g3
  · intro hp
    have hs : claudeSensitivityE true s.sensitive_patterns content =
        .CONFIDENTIAL := rfl
    unfold claude_check_ai_permission
    dsimp only
    rw [hs]
    split_ifs with h1 h2 h3 <;> try rfl
    all_goals exact absurd ⟨Or.inl rfl, hp⟩ h3

/-- Witness for C9's amended theorem at a concrete non-LOCAL call. -/
theorem fail_closed_by_variant_witness :
    (gemini_check_ai_permission true "boom" (openSettings geminiSensitivePatterns)
        "hello" .OPENAI "t").1 = false
    ∧ (claude_check_ai_permission true .OPEN (openSettings claudeSensitivePatterns)
        "hello" .OPENAI "t").1 = false :=
  ⟨(fail_closed_by_variant "boom" .OPEN (openSettings geminiSensitivePatterns)
      "hello" .OPENAI "t").1,
    (fail_closed_by_variant "boom" .OPEN (openSettings claudeSensitivePatterns)
      "hello" .OPENAI "t").2 (by decide)⟩
